import Mathlib

/-!
Verification model of the lambdarouter repository.

The repository concatenates several snapshots of one Go package
`lambdarouter`.  Two of them live in `src/router.go`:

* lines 1-187: a router whose routes carry a list of handlers
  (`Get(route, handlers ...APIGHandler)`), with the status and error
  translation policy inside `Respond` (lines 91-162); we embed it in
  namespace `ChainRouter`;
* lines 188-407: a router configured with `APIGRouterConfig`, whose routes
  carry one terminal handler plus middleware (`routeFunctions`), and whose
  `Respond` (lines 320-378) composes middleware and ignores the context
  error; we embed it in namespace `MwRouter`.

`src/unnamed/part_000` is an earlier snapshot of the first kind whose
reconciliation rewrites the whole path string with `strings.Replace`.

Strings are modelled with Lean `String` (a wrapper around `List Char`),
and the Go `strings` library functions used by the source
(`TrimPrefix`, `TrimSuffix`, `Split`, `Join`, `HasPrefix`, `Contains`)
are given as executable definitions over the character list, so that every
definition evaluates inside the kernel.  Go maps are modelled as
association lists (`lookupD` returns the zero value "" for a missing key,
exactly as a Go map read does); the `go-radix` tree is modelled by its
exact-key store semantics (`insertT` reports whether the key was already
present, `getT` looks a key up).  A Go `panic` in registration is modelled
by returning the mutated router together with a `Bool` fault flag.
-/

/-- `listHasPrefix pre l` is Go `strings.HasPrefix` on character lists. -/
def listHasPrefix : List Char → List Char → Bool
  | [], _ => true
  | _ :: _, [] => false
  | p :: ps, c :: cs => p = c && listHasPrefix ps cs

/-- Go `strings.Contains` on character lists: `sub` occurs inside `l`. -/
def listIsInfixOf (sub : List Char) : List Char → Bool
  | [] => sub.isEmpty
  | c :: cs => listHasPrefix sub (c :: cs) || listIsInfixOf sub cs

/-- Go `strings.Contains(s, sub)`. -/
def strContains (s sub : String) : Bool :=
  listIsInfixOf sub.data s.data

/-- Go `strings.HasPrefix(s, pre)`. -/
def hasPrefixStr (s pre : String) : Bool :=
  listHasPrefix pre.data s.data

/-- Go `strings.TrimPrefix(s, pre)`: remove one leading copy of `pre`. -/
def trimPrefixStr (s pre : String) : String :=
  if hasPrefixStr s pre then ⟨s.data.drop pre.data.length⟩ else s

/-- Go `strings.TrimSuffix(s, suf)`: remove one trailing copy of `suf`. -/
def trimSuffixStr (s suf : String) : String :=
  if listHasPrefix suf.data.reverse s.data.reverse then
    ⟨s.data.take (s.data.length - suf.data.length)⟩
  else s

/-- Go `strings.Split(s, "/")` on character lists (separator of length one,
never returns an empty list). -/
def splitSlash : List Char → List (List Char)
  | [] => [[]]
  | c :: cs =>
    let r := splitSlash cs
    if c = '/' then [] :: r
    else
      match r with
      | [] => [[c]]
      | g :: gs => (c :: g) :: gs

/-- Go `strings.Join(elems, "/")`. -/
def joinSlash : List String → String
  | [] => ""
  | [s] => s
  | s :: rest => s ++ "/" ++ joinSlash rest

/-- `stripSlashesAndSplit` from src/router.go lines 165-169 (and 386-390):
trim one leading and one trailing `/`, then split on `/`. -/
def stripSlashesAndSplit (s : String) : List String :=
  (splitSlash (trimSuffixStr (trimPrefixStr s "/") "/").data).map
    (fun l => ⟨l⟩)

/-- Reading key `k` from a Go `map[string]string`: the zero value "" is
returned when the key is absent. -/
def lookupD (m : List (String × String)) (k : String) : String :=
  match m with
  | [] => ""
  | (k2, v) :: rest => if k2 = k then v else lookupD rest k

/-- `radix.Tree.Insert(k, v)`: the updated store and whether an older value
was overwritten (go-radix mutates the tree and returns the update flag). -/
def insertT {α : Type} (t : List (String × α)) (k : String) (v : α) :
    List (String × α) × Bool :=
  match t with
  | [] => ([(k, v)], false)
  | (k2, v2) :: rest =>
    if k2 = k then ((k, v) :: rest, true)
    else
      let r := insertT rest k v
      ((k2, v2) :: r.1, r.2)

/-- `radix.Tree.Get(k)`. -/
def getT {α : Type} (t : List (String × α)) (k : String) : Option α :=
  match t with
  | [] => none
  | (k2, v) :: rest => if k2 = k then some v else getT rest k

/-- One character of Go `encoding/json` string escaping (the HTML escapes
of `<`, `>`, `&` are not reached by any message in this development). -/
def escChar (c : Char) : List Char :=
  if c = '"' then ['\\', '"']
  else if c = '\\' then ['\\', '\\']
  else if c = '\n' then ['\\', 'n']
  else if c = '\r' then ['\\', 'r']
  else if c = '\t' then ['\\', 't']
  else [c]

/-- Go `encoding/json` escaping of a string value. -/
def jsonEscape (s : String) : String :=
  ⟨(s.data.map escChar).flatten⟩

/-- `json.Marshal(map[string]string\x7b"error": msg\x7d)` as a string. -/
def errBody (msg : String) : String :=
  "\x7b\"error\":\"" ++ jsonEscape msg ++ "\"\x7d"

/-- The parsed `events.APIGatewayProxyRequest` fields the router reads. -/
structure APIGatewayProxyRequest where
  httpMethod : String
  path : String
  pathParameters : List (String × String)
  queryParameters : List (String × String)
  body : String
  claims : Option (List (String × String))

/-- The `events.APIGatewayProxyResponse` fields the router writes. -/
structure APIGatewayProxyResponse where
  statusCode : Nat
  body : String
  headers : List (String × String)
  deriving DecidableEq

/-- `strings.TrimSuffix(strings.TrimPrefix(k, "\x7b"), "\x7d")`: the
parameter name inside a `\x7bname\x7d` segment (router.go lines 106-107,
400-401). -/
def pname (s : String) : String :=
  trimSuffixStr (trimPrefixStr s "\x7b") "\x7d"

namespace ChainRouter

/-- `APIGContext` of src/router.go lines 25-33. -/
structure APIGContext where
  claims : Option (List (String × String))
  path : List (String × String)
  qryStr : List (String × String)
  body : String
  status : Nat
  errMsg : Option String

/-- `APIGHandler` (line 37); mutation of the context is modelled by
returning the updated context. -/
abbrev APIGHandler := APIGContext → APIGContext

/-- `APIGRouter` of src/router.go lines 40-45.  The Go `map` from the five
method strings to radix trees is modelled as a total function (the source
initialises exactly the five method keys). -/
structure Router where
  request : APIGatewayProxyRequest
  endpoints : String → List (String × List APIGHandler)
  params : List String
  svcpfx : String

/-- `NewAPIGRouter` (lines 50-63). -/
def NewAPIGRouter (r : APIGatewayProxyRequest) (svcpfx : String) : Router :=
  { request := r
    endpoints := fun _ => []
    params := []
    svcpfx := svcpfx }

/-- The parameter loop of `Respond` (lines 105-117): for each known
parameter key `k` (stored with braces), if the request supplies a non-empty
value, every path segment equal to that value is replaced by `k` (the inner
loop has no `break`). -/
def reconcileAll (ps : List String) (pp : List (String × String))
    (segs : List String) : List String :=
  match ps with
  | [] => segs
  | k :: rest =>
    if lookupD pp (pname k) = "" then reconcileAll rest pp segs
    else
      reconcileAll rest pp
        (segs.map (fun v => if v = lookupD pp (pname k) then k else v))

/-- The canonical lookup key built by `Respond` (lines 100-118). -/
def canonicalPath (r : Router) : String :=
  "/" ++ joinSlash
    (reconcileAll r.params r.request.pathParameters
      (stripSlashesAndSplit
        (trimPrefixStr r.request.path ("/" ++ r.svcpfx))))

/-- The fresh context built for each handler (lines 131-139). -/
def mkCtx (r : Router) : APIGContext :=
  { claims := r.request.claims
    path := r.request.pathParameters
    qryStr := r.request.queryParameters
    body := r.request.body
    status := 0
    errMsg := none }

/-- The handler loop of `Respond` (lines 130-160): each handler runs on a
fresh context; on an error the status is translated (`record not found`
forces 204, otherwise a status below 400 becomes 400) and the body becomes
the marshalled error; with no error the last status and body are kept. -/
def runChain (r : Router) : List APIGHandler → Nat → String →
    APIGatewayProxyResponse
  | [], status, respbody => { statusCode := status, body := respbody, headers := [] }
  | h :: rest, _, _ =>
    let ctx := h (mkCtx r)
    match ctx.errMsg with
    | some msg =>
      let st :=
        if strContains msg "record not found" then 204
        else if ctx.status < 400 then 400
        else ctx.status
      { statusCode := st, body := errBody msg, headers := [] }
    | none => runChain r rest ctx.status ctx.body

/-- `Respond` (src/router.go lines 91-162). -/
def Respond (r : Router) : APIGatewayProxyResponse :=
  match getT (r.endpoints r.request.httpMethod) (canonicalPath r) with
  | none =>
    { statusCode := 404
      body := errBody "no route matching path found"
      headers := [] }
  | some handlers => runChain r handlers 0 ""

/-- `addEndpoint` (lines 175-187): insert, fault on overwrite (the Go
`panic` fires before the parameter loop runs, so a faulting call returns
the router with the tree already mutated and `params` untouched), then
record every `\x7b`-prefixed segment as a known parameter key. -/
def addEndpoint (r : Router) (method route : String)
    (handlers : List APIGHandler) : Router × Bool :=
  let ins := insertT (r.endpoints method) route handlers
  let r2 := { r with endpoints := fun m => if m = method then ins.1 else r.endpoints m }
  if ins.2 then (r2, true)
  else
    ({ r2 with
        params :=
          (stripSlashesAndSplit route).foldl
            (fun acc v =>
              if hasPrefixStr v "\x7b" then
                (if acc.contains v then acc else acc ++ [v])
              else acc)
            r2.params },
      false)

end ChainRouter

namespace MwRouter

/-- `APIGContext` of src/router.go lines 212-221 (the `context.Context`
field is opaque to the router and is omitted). -/
structure APIGContext where
  claims : Option (List (String × String))
  path : List (String × String)
  qryStr : List (String × String)
  body : String
  status : Nat
  errMsg : Option String

/-- `APIGHandler` (line 225). -/
abbrev APIGHandler := APIGContext → APIGContext

/-- `APIGMiddleware` (line 229). -/
abbrev APIGMiddleware := APIGHandler → APIGHandler

/-- `routeFunctions` (lines 381-384). -/
structure RouteFunctions where
  handler : APIGHandler
  middleware : List APIGMiddleware

/-- `APIGRouter` of src/router.go lines 232-240. -/
structure Router where
  request : APIGatewayProxyRequest
  routes : String → List (String × RouteFunctions)
  params : List String
  pfx : String
  headers : List (String × String)
  middleware : List APIGMiddleware

/-- `APIGRouterConfig` (lines 245-251). -/
structure APIGRouterConfig where
  request : APIGatewayProxyRequest
  pfx : String
  headers : List (String × String)
  middleware : List APIGMiddleware

/-- `NewAPIGRouter` (lines 256-272). -/
def NewAPIGRouter (cfg : APIGRouterConfig) : Router :=
  { request := cfg.request
    routes := fun _ => []
    params := []
    pfx := cfg.pfx
    headers := cfg.headers
    middleware := cfg.middleware }

/-- The inner loop of the parameter rewrite (lines 345-350): replace the
first segment equal to `v` and stop (`break`). -/
def replaceFirst : List String → String → String → List String
  | [], _, _ => []
  | s :: rest, v, repl =>
    if s = v then repl :: rest else s :: replaceFirst rest v repl

/-- The parameter loop of `Respond` (lines 342-352): for each known
parameter name with a non-empty request value, replace the first matching
segment by `\x7bname\x7d`. -/
def reconcile (ps : List String) (pp : List (String × String))
    (segs : List String) : List String :=
  match ps with
  | [] => segs
  | p :: rest =>
    if lookupD pp p = "" then reconcile rest pp segs
    else
      reconcile rest pp
        (replaceFirst segs (lookupD pp p) ("\x7b" ++ p ++ "\x7d"))

/-- The canonical lookup key built by `Respond` (lines 328-353). -/
def canonicalPath (r : Router) : String :=
  "/" ++ joinSlash
    (reconcile r.params r.request.pathParameters
      (stripSlashesAndSplit (trimPrefixStr r.request.path r.pfx)))

/-- The context built once per dispatch (lines 330-340). -/
def mkCtx (r : Router) : APIGContext :=
  { claims := r.request.claims
    path := r.request.pathParameters
    qryStr := r.request.queryParameters
    body := r.request.body
    status := 0
    errMsg := none }

/-- The middleware wrap loops of `Respond` (lines 366-371): the handler is
wrapped by the route middleware in order, then by the router middleware in
order, so router middleware sits outside route middleware. -/
def applyMw (mws : List APIGMiddleware) (h : APIGHandler) : APIGHandler :=
  mws.foldl (fun acc m => m acc) h

/-- `Respond` (src/router.go lines 320-378).  Note the context error is
never read: the response always carries the status and body left on the
context. -/
def Respond (r : Router) : APIGatewayProxyResponse :=
  match getT (r.routes r.request.httpMethod) (canonicalPath r) with
  | none =>
    { statusCode := 404
      body := errBody "no route matching path found"
      headers := r.headers }
  | some fns =>
    let ctx := applyMw r.middleware (applyMw fns.middleware fns.handler) (mkCtx r)
    { statusCode := ctx.status, body := ctx.body, headers := r.headers }

/-- `addRoute` (lines 392-406): insert, fault on overwrite (the Go `panic`
fires before the parameter loop, so a faulting call returns the router with
the tree already mutated and `params` untouched), then record the stripped
name of every `\x7b`-prefixed segment as a known parameter (`r.params[v] =
nil` adds a unique key). -/
def addRoute (r : Router) (method path : String) (fns : RouteFunctions) :
    Router × Bool :=
  let ins := insertT (r.routes method) path fns
  let r2 := { r with routes := fun m => if m = method then ins.1 else r.routes m }
  if ins.2 then (r2, true)
  else
    ({ r2 with
        params :=
          (stripSlashesAndSplit path).foldl
            (fun acc v =>
              if hasPrefixStr v "\x7b" then
                (if acc.contains (pname v) then acc else acc ++ [pname v])
              else acc)
            r2.params },
      false)

end MwRouter

/-! Store lemmas: exact-key semantics of `insertT` and `getT`. -/

theorem insertT_fresh {α : Type} (t : List (String × α)) (k : String) (v : α)
    (h : getT t k = none) : (insertT t k v).2 = false := by
  induction t with
  | nil => rfl
  | cons kv rest ih =>
    obtain ⟨k2, v2⟩ := kv
    by_cases hk : k2 = k
    · simp [getT, hk] at h
    · simp only [insertT, if_neg hk]
      simp only [getT, if_neg hk] at h
      exact ih h

theorem insertT_dup {α : Type} (t : List (String × α)) (k : String) (v w : α)
    (h : getT t k = some w) : (insertT t k v).2 = true := by
  induction t with
  | nil => simp [getT] at h
  | cons kv rest ih =>
    obtain ⟨k2, v2⟩ := kv
    by_cases hk : k2 = k
    · simp [insertT, hk]
    · simp only [insertT, if_neg hk]
      simp only [getT, if_neg hk] at h
      exact ih h

theorem insertT_get {α : Type} (t : List (String × α)) (k : String) (v : α) :
    getT (insertT t k v).1 k = some v := by
  induction t with
  | nil => simp [insertT, getT]
  | cons kv rest ih =>
    obtain ⟨k2, v2⟩ := kv
    by_cases hk : k2 = k
    · simp [insertT, getT, hk]
    · simp only [insertT, if_neg hk]
      simpa [getT, if_neg hk] using ih

/-! Lemmas on the first-match segment replacement of the middleware
variant. -/

theorem replaceFirst_not_mem (l : List String) (v repl : String)
    (h : v ∉ l) : MwRouter.replaceFirst l v repl = l := by
  induction l with
  | nil => rfl
  | cons s rest ih =>
    simp only [List.mem_cons, not_or] at h
    simp only [MwRouter.replaceFirst, if_neg (Ne.symm h.1)]
    rw [ih h.2]

theorem replaceFirst_append (pre post : List String) (v repl : String)
    (h : v ∉ pre) :
    MwRouter.replaceFirst (pre ++ v :: post) v repl = pre ++ repl :: post := by
  induction pre with
  | nil => simp [MwRouter.replaceFirst]
  | cons s rest ih =>
    simp only [List.mem_cons, not_or] at h
    simp only [List.cons_append, MwRouter.replaceFirst, List.append_eq,
      if_neg (Ne.symm h.1)]
    rw [ih h.2]

/-! Template-shaped inputs for the reconciliation theorem.  A template is
the list of segments of a registered route; a parameter segment is one
beginning with a brace, exactly the test `strings.HasPrefix(v, "\x7b")`
used at registration (router.go lines 398-402). -/

/-- The registration test for a parameter segment. -/
def isParamSeg (s : String) : Bool :=
  hasPrefixStr s "\x7b"

/-- The parameter names appearing in a template, as collected by
`addRoute`. -/
def paramsOf (T : List String) : List String :=
  (T.filter (fun s => isParamSeg s)).map pname

/-- The segments of a template with the parameters outside `done` replaced
by their concrete request values: `substSegs pp T []` is the concrete
request path, and once every parameter name is in `done` the template
itself is recovered. -/
def substSegs (pp : List (String × String)) (T : List String)
    (done : List String) : List String :=
  T.map (fun s =>
    if isParamSeg s then
      (if pname s ∈ done then s else lookupD pp (pname s))
    else s)

theorem mem_paramsOf {T : List String} {s : String} (hsT : s ∈ T)
    (hs : isParamSeg s = true) : pname s ∈ paramsOf T := by
  simp only [paramsOf, List.mem_map, List.mem_filter]
  exact ⟨s, ⟨hsT, hs⟩, rfl⟩

theorem exists_of_mem_paramsOf {T : List String} {q : String}
    (hq : q ∈ paramsOf T) :
    ∃ s, s ∈ T ∧ isParamSeg s = true ∧ pname s = q := by
  simp only [paramsOf, List.mem_map, List.mem_filter] at hq
  obtain ⟨s, ⟨hsT, hs⟩, hp⟩ := hq
  exact ⟨s, hsT, hs, hp⟩

theorem paramsOf_cons_param {T : List String} {s : String}
    (hs : isParamSeg s = true) :
    paramsOf (s :: T) = pname s :: paramsOf T := by
  simp [paramsOf, hs]

theorem paramsOf_cons_lit {T : List String} {s : String}
    (hs : isParamSeg s = false) :
    paramsOf (s :: T) = paramsOf T := by
  simp [paramsOf, hs]

theorem substSegs_congr (pp : List (String × String)) (T : List String)
    (d1 d2 : List String)
    (h : ∀ s ∈ T, isParamSeg s = true → (pname s ∈ d1 ↔ pname s ∈ d2)) :
    substSegs pp T d1 = substSegs pp T d2 := by
  unfold substSegs
  apply List.map_congr_left
  intro s hsT
  cases hs : isParamSeg s with
  | false => simp [hs]
  | true =>
    simp only [hs, if_true]
    by_cases hd : pname s ∈ d1
    · rw [if_pos hd, if_pos ((h s hsT hs).mp hd)]
    · rw [if_neg hd, if_neg (fun hc => hd ((h s hsT hs).mpr hc))]

theorem substSegs_full (pp : List (String × String)) (T : List String)
    (done : List String)
    (h : ∀ s ∈ T, isParamSeg s = true → pname s ∈ done) :
    substSegs pp T done = T := by
  unfold substSegs
  have : ∀ s ∈ T,
      (if isParamSeg s then
        (if pname s ∈ done then s else lookupD pp (pname s))
      else s) = s := by
    intro s hsT
    cases hs : isParamSeg s with
    | false => simp [hs]
    | true => simp [hs, h s hsT hs]
  rw [List.map_congr_left this]
  exact List.map_id T

theorem not_mem_substSegs (pp : List (String × String)) (T done : List String)
    (q : String)
    (hvalseg : ∀ s ∈ T, isParamSeg s = true → ∀ t ∈ T, lookupD pp (pname s) ≠ t)
    (hinj : ∀ s ∈ T, ∀ t ∈ T, isParamSeg s = true → isParamSeg t = true →
        lookupD pp (pname s) = lookupD pp (pname t) → pname s = pname t)
    (hq : ∃ s0, s0 ∈ T ∧ isParamSeg s0 = true ∧ pname s0 = q)
    (hdone : q ∈ done) :
    lookupD pp q ∉ substSegs pp T done := by
  obtain ⟨s0, hs0T, hs0p, hs0n⟩ := hq
  intro hmem
  unfold substSegs at hmem
  rw [List.mem_map] at hmem
  obtain ⟨s, hsT, hfs⟩ := hmem
  cases hs : isParamSeg s with
  | false =>
    rw [hs] at hfs
    simp only [Bool.false_eq_true, if_false] at hfs
    exact hvalseg s0 hs0T hs0p s hsT (by rw [hs0n, hfs])
  | true =>
    rw [hs] at hfs
    simp only [if_true] at hfs
    by_cases hd : pname s ∈ done
    · rw [if_pos hd] at hfs
      exact hvalseg s0 hs0T hs0p s hsT (by rw [hs0n, hfs])
    · rw [if_neg hd] at hfs
      have hpn : pname s = pname s0 :=
        hinj s hsT s0 hs0T hs hs0p (by rw [hs0n]; exact hfs)
      exact hd (by rw [hpn, hs0n]; exact hdone)

theorem replaceFirst_substSegs (pp : List (String × String)) (q : String) :
    ∀ (T done : List String),
    (∀ s ∈ T, isParamSeg s = true → s = "\x7b" ++ pname s ++ "\x7d") →
    (∀ s ∈ T, isParamSeg s = true → ∀ t ∈ T, lookupD pp (pname s) ≠ t) →
    (∀ s ∈ T, ∀ t ∈ T, isParamSeg s = true → isParamSeg t = true →
        lookupD pp (pname s) = lookupD pp (pname t) → pname s = pname t) →
    (paramsOf T).Nodup →
    (∃ s0, s0 ∈ T ∧ isParamSeg s0 = true ∧ pname s0 = q) →
    q ∉ done →
    MwRouter.replaceFirst (substSegs pp T done) (lookupD pp q)
        ("\x7b" ++ q ++ "\x7d")
      = substSegs pp T (q :: done) := by
  intro T
  induction T with
  | nil =>
    intro done _ _ _ _ hq _
    obtain ⟨s0, hs0T, _, _⟩ := hq
    exact absurd hs0T (List.not_mem_nil s0)
  | cons s T2 ih =>
    intro done hround hvalseg hinj hnodup hq hqdone
    obtain ⟨s0, hs0T, hs0p, hs0n⟩ := hq
    have hround2 : ∀ u ∈ T2, isParamSeg u = true → u = "\x7b" ++ pname u ++ "\x7d" :=
      fun u hu => hround u (List.mem_cons_of_mem s hu)
    have hvalseg2 : ∀ u ∈ T2, isParamSeg u = true → ∀ t ∈ T2,
        lookupD pp (pname u) ≠ t :=
      fun u hu hup t ht =>
        hvalseg u (List.mem_cons_of_mem s hu) hup t (List.mem_cons_of_mem s ht)
    have hinj2 : ∀ u ∈ T2, ∀ t ∈ T2, isParamSeg u = true → isParamSeg t = true →
        lookupD pp (pname u) = lookupD pp (pname t) → pname u = pname t :=
      fun u hu t ht => hinj u (List.mem_cons_of_mem s hu) t (List.mem_cons_of_mem s ht)
    cases hs : isParamSeg s with
    | false =>
      have hnodup2 : (paramsOf T2).Nodup := by
        rwa [paramsOf_cons_lit hs] at hnodup
      have hs0T2 : s0 ∈ T2 := by
        rcases List.mem_cons.mp hs0T with he | h2
        · rw [he] at hs0p; rw [hs0p] at hs; exact absurd hs (by simp)
        · exact h2
      have hhead : lookupD pp q ≠ s := by
        have := hvalseg s0 hs0T hs0p s (List.mem_cons_self s T2)
        rwa [hs0n] at this
      simp only [substSegs, List.map_cons, hs, Bool.false_eq_true, if_false]
      simp only [MwRouter.replaceFirst]
      have hrec := ih done hround2 hvalseg2 hinj2 hnodup2 ⟨s0, hs0T2, hs0p, hs0n⟩ hqdone
      simp only [substSegs] at hrec
      rw [hrec, if_neg (Ne.symm hhead)]
    | true =>
      have hnodup2 : (paramsOf T2).Nodup := by
        rw [paramsOf_cons_param hs] at hnodup
        exact (List.nodup_cons.mp hnodup).2
      have hheadfresh : pname s ∉ paramsOf T2 := by
        rw [paramsOf_cons_param hs] at hnodup
        exact (List.nodup_cons.mp hnodup).1
      by_cases hd : pname s ∈ done
      · -- placeholder already substituted back: the head is the template
        -- segment itself and cannot match the value of q
        have hs0T2 : s0 ∈ T2 := by
          rcases List.mem_cons.mp hs0T with he | h2
          · exfalso
            rw [he] at hs0n
            rw [hs0n] at hd
            exact hqdone hd
          · exact h2
        have hhead : lookupD pp q ≠ s := by
          have := hvalseg s0 hs0T hs0p s (List.mem_cons_self s T2)
          rwa [hs0n] at this
        have hdq : pname s ∈ q :: done := List.mem_cons_of_mem q hd
        simp only [substSegs, List.map_cons, hs, if_true, if_pos hd, if_pos hdq]
        simp only [MwRouter.replaceFirst]
        have hrec := ih done hround2 hvalseg2 hinj2 hnodup2 ⟨s0, hs0T2, hs0p, hs0n⟩ hqdone
        simp only [substSegs] at hrec
        rw [hrec, if_neg (Ne.symm hhead)]
      · by_cases hn : pname s = q
        · -- the parameter being substituted: its value sits at the head
          have hdq : pname s ∈ q :: done := by
            rw [hn]; exact List.mem_cons_self q done
          simp only [substSegs, List.map_cons, hs, if_true, if_neg hd, if_pos hdq]
          simp only [MwRouter.replaceFirst, hn]
          rw [if_pos trivial]
          have hsval : s = "\x7b" ++ q ++ "\x7d" := by
            rw [hround s (List.mem_cons_self s T2) hs, hn]
          rw [hsval]
          have hcg : substSegs pp T2 (q :: done) = substSegs pp T2 done := by
            apply substSegs_congr
            intro t htT2 htp
            have htn : pname t ≠ q := by
              intro he
              rw [← hn] at he
              exact hheadfresh (he ▸ mem_paramsOf htT2 htp)
            simp [List.mem_cons, htn]
          simp only [substSegs] at hcg
          rw [hcg]
        · -- a different, not yet substituted parameter: values differ
          have hs0T2 : s0 ∈ T2 := by
            rcases List.mem_cons.mp hs0T with he | h2
            · exfalso; rw [he] at hs0n; exact hn hs0n
            · exact h2
          have hhead : lookupD pp (pname s) ≠ lookupD pp q := by
            intro he
            apply hn
            have := hinj s (List.mem_cons_self s T2) s0 hs0T hs hs0p
              (by rw [hs0n]; exact he)
            rw [this, hs0n]
          have hdq : pname s ∉ q :: done := by
            intro hc
            rcases List.mem_cons.mp hc with he | h2
            · exact hn he
            · exact hd h2
          simp only [substSegs, List.map_cons, hs, if_true, if_neg hd, if_neg hdq]
          simp only [MwRouter.replaceFirst]
          have hrec := ih done hround2 hvalseg2 hinj2 hnodup2 ⟨s0, hs0T2, hs0p, hs0n⟩ hqdone
          simp only [substSegs] at hrec
          rw [hrec, if_neg hhead]

theorem reconcile_substSegs (pp : List (String × String)) (T : List String)
    (hround : ∀ s ∈ T, isParamSeg s = true → s = "\x7b" ++ pname s ++ "\x7d")
    (hvalne : ∀ s ∈ T, isParamSeg s = true → lookupD pp (pname s) ≠ "")
    (hvalseg : ∀ s ∈ T, isParamSeg s = true → ∀ t ∈ T, lookupD pp (pname s) ≠ t)
    (hinj : ∀ s ∈ T, ∀ t ∈ T, isParamSeg s = true → isParamSeg t = true →
        lookupD pp (pname s) = lookupD pp (pname t) → pname s = pname t)
    (hnodup : (paramsOf T).Nodup) :
    ∀ (ps done : List String),
    (∀ p ∈ ps, p ∉ paramsOf T → lookupD pp p = "") →
    MwRouter.reconcile ps pp (substSegs pp T done)
      = substSegs pp T (ps.reverse ++ done) := by
  intro ps
  induction ps with
  | nil =>
    intro done _
    simp [MwRouter.reconcile]
  | cons p rest ih =>
    intro done hps
    have hps2 : ∀ u ∈ rest, u ∉ paramsOf T → lookupD pp u = "" :=
      fun u hu => hps u (List.mem_cons_of_mem p hu)
    simp only [MwRouter.reconcile]
    by_cases hp : lookupD pp p = ""
    · rw [if_pos hp, ih done hps2]
      apply substSegs_congr
      intro s hsT hsp
      have hpn : p ∉ paramsOf T := by
        intro hmem
        obtain ⟨s0, h0T, h0p, h0n⟩ := exists_of_mem_paramsOf hmem
        exact hvalne s0 h0T h0p (h0n ▸ hp)
      have hne : pname s ≠ p := fun he => hpn (he ▸ mem_paramsOf hsT hsp)
      simp [List.reverse_cons, List.mem_append, List.mem_cons, hne]
    · rw [if_neg hp]
      have hpmem : p ∈ paramsOf T := by
        by_contra hc
        exact hp (hps p (List.mem_cons_self p rest) hc)
      by_cases hd : p ∈ done
      · -- this name was already substituted on an earlier pass: no segment
        -- still carries its value, so the scan changes nothing
        rw [replaceFirst_not_mem _ _ _
          (not_mem_substSegs pp T done p hvalseg hinj
            (exists_of_mem_paramsOf hpmem) hd)]
        rw [ih done hps2]
        apply substSegs_congr
        intro s hsT hsp
        by_cases he : pname s = p
        · constructor
          · intro _
            simp [List.reverse_cons, List.mem_append, List.mem_cons, he, hd]
          · intro _
            simp [List.mem_append, he, hd]
        · simp [List.reverse_cons, List.mem_append, List.mem_cons, he]
      · rw [replaceFirst_substSegs pp p T done hround hvalseg hinj hnodup
          (exists_of_mem_paramsOf hpmem) hd]
        rw [ih (p :: done) hps2]
        apply substSegs_congr
        intro s hsT hsp
        simp only [List.reverse_cons, List.mem_append, List.mem_cons,
          List.mem_singleton]
        tauto

/-! The replace-all scan of the handler-chain variant: under the same
collision provisos it also rewrites exactly the parameter positions. -/

theorem replaceAllMap_not_mem (l : List String) (v repl : String)
    (h : v ∉ l) :
    l.map (fun x => if x = v then repl else x) = l := by
  have hc : ∀ x ∈ l, (if x = v then repl else x) = x := by
    intro x hx
    rw [if_neg]
    intro he
    exact h (he ▸ hx)
  rw [List.map_congr_left hc]
  exact List.map_id l

theorem replaceAll_substSegs (pp : List (String × String)) (q repl : String)
    (T done : List String)
    (hround : ∀ s ∈ T, isParamSeg s = true → s = "\x7b" ++ pname s ++ "\x7d")
    (hvalseg : ∀ s ∈ T, isParamSeg s = true → ∀ t ∈ T, lookupD pp (pname s) ≠ t)
    (hinj : ∀ s ∈ T, ∀ t ∈ T, isParamSeg s = true → isParamSeg t = true →
        lookupD pp (pname s) = lookupD pp (pname t) → pname s = pname t)
    (hq : ∃ s0, s0 ∈ T ∧ isParamSeg s0 = true ∧ pname s0 = q)
    (hrepl : repl = "\x7b" ++ q ++ "\x7d") :
    (substSegs pp T done).map (fun x => if x = lookupD pp q then repl else x)
      = substSegs pp T (q :: done) := by
  obtain ⟨s0, hs0T, hs0p, hs0n⟩ := hq
  unfold substSegs
  rw [List.map_map]
  apply List.map_congr_left
  intro s hsT
  simp only [Function.comp_apply]
  have hvs : lookupD pp q ≠ s := by
    have := hvalseg s0 hs0T hs0p s hsT
    rwa [hs0n] at this
  cases hs : isParamSeg s with
  | false =>
    simp only [hs, Bool.false_eq_true, if_false]
    rw [if_neg (Ne.symm hvs)]
  | true =>
    simp only [hs, if_true]
    by_cases hd : pname s ∈ done
    · have hdq : pname s ∈ q :: done := List.mem_cons_of_mem q hd
      rw [if_pos hd, if_pos hdq, if_neg (Ne.symm hvs)]
    · by_cases hn : pname s = q
      · have hdq : pname s ∈ q :: done := by
          rw [hn]; exact List.mem_cons_self q done
        rw [if_neg hd, if_pos hdq, hn, if_pos rfl, hrepl,
          hround s hsT hs, hn]
      · have hdq : pname s ∉ q :: done := by
          intro hc
          rcases List.mem_cons.mp hc with he | h2
          · exact hn he
          · exact hd h2
        have hne : lookupD pp (pname s) ≠ lookupD pp q := by
          intro he
          apply hn
          have := hinj s hsT s0 hs0T hs hs0p (by rw [hs0n]; exact he)
          rw [this, hs0n]
        rw [if_neg hd, if_neg hdq, if_neg hne]

theorem reconcileAll_substSegs (pp : List (String × String)) (T : List String)
    (hround : ∀ s ∈ T, isParamSeg s = true → s = "\x7b" ++ pname s ++ "\x7d")
    (hvalne : ∀ s ∈ T, isParamSeg s = true → lookupD pp (pname s) ≠ "")
    (hvalseg : ∀ s ∈ T, isParamSeg s = true → ∀ t ∈ T, lookupD pp (pname s) ≠ t)
    (hinj : ∀ s ∈ T, ∀ t ∈ T, isParamSeg s = true → isParamSeg t = true →
        lookupD pp (pname s) = lookupD pp (pname t) → pname s = pname t) :
    ∀ (ks done : List String),
    (∀ k ∈ ks, k = "\x7b" ++ pname k ++ "\x7d") →
    (∀ k ∈ ks, pname k ∉ paramsOf T → lookupD pp (pname k) = "") →
    ChainRouter.reconcileAll ks pp (substSegs pp T done)
      = substSegs pp T ((ks.map pname).reverse ++ done) := by
  intro ks
  induction ks with
  | nil =>
    intro done _ _
    simp [ChainRouter.reconcileAll]
  | cons k rest ih =>
    intro done hks hothers
    have hks2 : ∀ u ∈ rest, u = "\x7b" ++ pname u ++ "\x7d" :=
      fun u hu => hks u (List.mem_cons_of_mem k hu)
    have hothers2 : ∀ u ∈ rest, pname u ∉ paramsOf T → lookupD pp (pname u) = "" :=
      fun u hu => hothers u (List.mem_cons_of_mem k hu)
    simp only [ChainRouter.reconcileAll]
    by_cases hv : lookupD pp (pname k) = ""
    · rw [if_pos hv, ih done hks2 hothers2]
      apply substSegs_congr
      intro s hsT hsp
      have hkn : pname k ∉ paramsOf T := by
        intro hmem
        obtain ⟨s0, h0T, h0p, h0n⟩ := exists_of_mem_paramsOf hmem
        exact hvalne s0 h0T h0p (h0n ▸ hv)
      have hne : pname s ≠ pname k := fun he => hkn (he ▸ mem_paramsOf hsT hsp)
      simp [List.map_cons, List.reverse_cons, List.mem_append, List.mem_cons, hne]
    · rw [if_neg hv]
      have hm : pname k ∈ paramsOf T := by
        by_contra hc
        exact hv (hothers k (List.mem_cons_self k rest) hc)
      by_cases hd : pname k ∈ done
      · rw [replaceAllMap_not_mem _ _ _
          (not_mem_substSegs pp T done (pname k) hvalseg hinj
            (exists_of_mem_paramsOf hm) hd)]
        rw [ih done hks2 hothers2]
        apply substSegs_congr
        intro s hsT hsp
        by_cases he : pname s = pname k
        · constructor
          · intro _
            simp [List.map_cons, List.reverse_cons, List.mem_append,
              List.mem_cons, he, hd]
          · intro _
            simp [List.mem_append, he, hd]
        · simp [List.map_cons, List.reverse_cons, List.mem_append,
            List.mem_cons, he]
      · rw [replaceAll_substSegs pp (pname k) k T done hround hvalseg hinj
          (exists_of_mem_paramsOf hm) (hks k (List.mem_cons_self k rest))]
        rw [ih (pname k :: done) hks2 hothers2]
        apply substSegs_congr
        intro s hsT hsp
        simp only [List.map_cons, List.reverse_cons, List.mem_append,
          List.mem_cons, List.mem_singleton]
        tauto

/-! Claim C1. -/

/-- Counterexample request for C1: template `/a/\x7bid\x7d`, request path
`/a/a`, parameter `id` bound to `a` — the concrete value of the parameter
coincides with the literal first segment. -/
def c1cexReq : APIGatewayProxyRequest :=
  { httpMethod := "GET"
    path := "/a/a"
    pathParameters := [("id", "a")]
    queryParameters := []
    body := ""
    claims := none }

/-- The handler of the C1 counterexample route: it sets status 200 and body
`hello`. -/
def c1cexFns : MwRouter.RouteFunctions :=
  { handler := fun ctx => { ctx with status := 200, body := "hello" }
    middleware := [] }

/-- The C1 counterexample router: the template `/a/\x7bid\x7d` registered
for GET with no prefix, no headers and no router middleware. -/
def c1cexRouter : MwRouter.Router :=
  (MwRouter.addRoute
    (MwRouter.NewAPIGRouter
      { request := c1cexReq, pfx := "", headers := [], middleware := [] })
    "GET" "/a/\x7bid\x7d" c1cexFns).1

/-- C1, counterexample.  The claim states that whenever the request's
`pathParameters` supply exactly the parameter names of a registered
template, mapped to the concrete values appearing in the request path,
`Respond` dispatches to the chain of that template.  Here the template
`/a/\x7bid\x7d` is registered, the request path (no prefix configured) is
`/a/a`, and `pathParameters` is exactly `id = a` — the value `a` genuinely
appears at the parameter position.  Yet the left-to-right scan replaces the
first segment equal to `a`, which is the literal `a`, producing the key
`/\x7bid\x7d/a`; lookup fails and `Respond` returns 404 instead of the
status 200 and body `hello` the chain would set. -/
theorem c1_counterexample :
    MwRouter.Respond c1cexRouter
        = { statusCode := 404
            body := errBody "no route matching path found"
            headers := [] } ∧
      MwRouter.Respond c1cexRouter
        ≠ { statusCode := 200, body := "hello", headers := [] } := by
  constructor
  · rfl
  · decide

/-- C1, amended.  For every registered template `T` (stored under the key
`/` ++ joined segments) containing parameter segments, if the request path
after stripping the configured prefix splits exactly into the segments of
`T` with every parameter replaced by its (non-empty) concrete value, the
`pathParameters` map supplies exactly the known parameter names of `T`
(every other known name gets the empty value), and additionally no supplied
value collides with any other segment of the template — no value equals a
literal segment or a brace-wrapped parameter segment, distinct parameters
carry distinct values, and each parameter occurs in only one segment —
then reconciliation rebuilds exactly the registered template and `Respond`
dispatches to the chain of that template, in both variants: the
middleware-variant `Respond` returns the status and body left on the
context by the composed chain, and the handler-chain `Respond` runs the
stored handler list.  The routers `rB` (middleware variant) and `rA`
(handler-chain variant) carry their own requests; in `rA` the known
parameter keys are stored with braces, so the collision hypotheses are
stated against the stripped names. -/
theorem c1_amended
    (rB : MwRouter.Router) (rA : ChainRouter.Router) (T : List String)
    (fns : MwRouter.RouteFunctions) (hs : List ChainRouter.APIGHandler)
    (hround : ∀ s ∈ T, isParamSeg s = true → s = "\x7b" ++ pname s ++ "\x7d")
    (hnodup : (paramsOf T).Nodup)
    (hvalneB : ∀ s ∈ T, isParamSeg s = true →
        lookupD rB.request.pathParameters (pname s) ≠ "")
    (hvalsegB : ∀ s ∈ T, isParamSeg s = true → ∀ t ∈ T,
        lookupD rB.request.pathParameters (pname s) ≠ t)
    (hinjB : ∀ s ∈ T, ∀ t ∈ T, isParamSeg s = true → isParamSeg t = true →
        lookupD rB.request.pathParameters (pname s)
          = lookupD rB.request.pathParameters (pname t) → pname s = pname t)
    (hsubB : ∀ p ∈ paramsOf T, p ∈ rB.params)
    (hotherB : ∀ q ∈ rB.params, q ∉ paramsOf T →
        lookupD rB.request.pathParameters q = "")
    (hsplitB : stripSlashesAndSplit (trimPrefixStr rB.request.path rB.pfx)
        = substSegs rB.request.pathParameters T [])
    (hkeyB : getT (rB.routes rB.request.httpMethod) ("/" ++ joinSlash T)
        = some fns)
    (hvalneA : ∀ s ∈ T, isParamSeg s = true →
        lookupD rA.request.pathParameters (pname s) ≠ "")
    (hvalsegA : ∀ s ∈ T, isParamSeg s = true → ∀ t ∈ T,
        lookupD rA.request.pathParameters (pname s) ≠ t)
    (hinjA : ∀ s ∈ T, ∀ t ∈ T, isParamSeg s = true → isParamSeg t = true →
        lookupD rA.request.pathParameters (pname s)
          = lookupD rA.request.pathParameters (pname t) → pname s = pname t)
    (hroundA : ∀ k ∈ rA.params, k = "\x7b" ++ pname k ++ "\x7d")
    (hsubA : ∀ s ∈ T, isParamSeg s = true → s ∈ rA.params)
    (hotherA : ∀ k ∈ rA.params, pname k ∉ paramsOf T →
        lookupD rA.request.pathParameters (pname k) = "")
    (hsplitA : stripSlashesAndSplit
          (trimPrefixStr rA.request.path ("/" ++ rA.svcpfx))
        = substSegs rA.request.pathParameters T [])
    (hkeyA : getT (rA.endpoints rA.request.httpMethod) ("/" ++ joinSlash T)
        = some hs) :
    MwRouter.Respond rB
        = { statusCode :=
              (MwRouter.applyMw rB.middleware
                (MwRouter.applyMw fns.middleware fns.handler)
                (MwRouter.mkCtx rB)).status
            body :=
              (MwRouter.applyMw rB.middleware
                (MwRouter.applyMw fns.middleware fns.handler)
                (MwRouter.mkCtx rB)).body
            headers := rB.headers } ∧
      ChainRouter.Respond rA = ChainRouter.runChain rA hs 0 "" := by
  constructor
  · have hrec := reconcile_substSegs rB.request.pathParameters T hround hvalneB
      hvalsegB hinjB hnodup rB.params [] hotherB
    have hfull : substSegs rB.request.pathParameters T (rB.params.reverse ++ [])
        = T := by
      apply substSegs_full
      intro s hsT hsp
      have hmem : pname s ∈ rB.params := hsubB (pname s) (mem_paramsOf hsT hsp)
      simp [List.mem_append, List.mem_reverse, hmem]
    unfold MwRouter.Respond MwRouter.canonicalPath
    rw [hsplitB, hrec, hfull, hkeyB]
  · have hrec := reconcileAll_substSegs rA.request.pathParameters T hround
      hvalneA hvalsegA hinjA rA.params [] hroundA hotherA
    have hfull : substSegs rA.request.pathParameters T
        ((rA.params.map pname).reverse ++ []) = T := by
      apply substSegs_full
      intro s hsT hsp
      have hmem : pname s ∈ List.map pname rA.params :=
        List.mem_map_of_mem pname (hsubA s hsT hsp)
      simp [List.mem_append, List.mem_reverse, hmem]
    unfold ChainRouter.Respond ChainRouter.canonicalPath
    rw [hsplitA, hrec, hfull, hkeyA]

/-- Witness request for C1 (the scenario of the repository test suite):
`GET /shipping/listings/57/state/list` with `id = 57` and `event = list`. -/
def c1wReq : APIGatewayProxyRequest :=
  { httpMethod := "GET"
    path := "/shipping/listings/57/state/list"
    pathParameters := [("id", "57"), ("event", "list")]
    queryParameters := []
    body := ""
    claims := none }

/-- Witness chain for C1, middleware variant: the handler sets status 200
and body `hello`. -/
def c1wFns : MwRouter.RouteFunctions :=
  { handler := fun ctx => { ctx with status := 200, body := "hello" }
    middleware := [] }

/-- Witness router for C1, middleware variant: prefix `/shipping` and the
template `/listings/\x7bid\x7d/state/\x7bevent\x7d` registered for GET. -/
def c1wRouter : MwRouter.Router :=
  (MwRouter.addRoute
    (MwRouter.NewAPIGRouter
      { request := c1wReq, pfx := "/shipping", headers := [], middleware := [] })
    "GET" "/listings/\x7bid\x7d/state/\x7bevent\x7d" c1wFns).1

/-- Witness chain for C1, handler-chain variant. -/
def c1wHs : List ChainRouter.APIGHandler :=
  [fun ctx => { ctx with status := 200, body := "hello" }]

/-- Witness router for C1, handler-chain variant: service prefix
`shipping` and the same template registered for GET. -/
def c1wRouterA : ChainRouter.Router :=
  (ChainRouter.addEndpoint (ChainRouter.NewAPIGRouter c1wReq "shipping")
    "GET" "/listings/\x7bid\x7d/state/\x7bevent\x7d" c1wHs).1

/-- The segments of the witness template for C1. -/
def c1wT : List String :=
  ["listings", "\x7bid\x7d", "state", "\x7bevent\x7d"]

/-- Witness for the amended C1 at the concrete test scenario, for both
variants. -/
theorem c1_amended_witness :
    (MwRouter.Respond c1wRouter
      = { statusCode :=
            (MwRouter.applyMw c1wRouter.middleware
              (MwRouter.applyMw c1wFns.middleware c1wFns.handler)
              (MwRouter.mkCtx c1wRouter)).status
          body :=
            (MwRouter.applyMw c1wRouter.middleware
              (MwRouter.applyMw c1wFns.middleware c1wFns.handler)
              (MwRouter.mkCtx c1wRouter)).body
          headers := c1wRouter.headers }) ∧
      ChainRouter.Respond c1wRouterA = ChainRouter.runChain c1wRouterA c1wHs 0 "" :=
  c1_amended c1wRouter c1wRouterA c1wT c1wFns c1wHs (by decide) (by decide)
    (by decide) (by decide) (by decide) (by decide) (by decide) (by decide)
    (by rfl) (by decide) (by decide) (by decide) (by decide) (by decide)
    (by decide) (by decide) (by rfl)

/-! Claim C2. -/

/-- C2: whenever the reconciled canonical key has no registered template
under the request method, `Respond` answers with status exactly 404 and
body exactly `\x7b"error":"no route matching path found"\x7d`, in both
`Respond` variants (router.go lines 120-126 and 355-362).  No handler is
executed: the statement quantifies over arbitrary routers, so the response
is the same whatever chains are stored. -/
theorem c2_notFound (rA : ChainRouter.Router) (rB : MwRouter.Router)
    (hA : getT (rA.endpoints rA.request.httpMethod)
        (ChainRouter.canonicalPath rA) = none)
    (hB : getT (rB.routes rB.request.httpMethod)
        (MwRouter.canonicalPath rB) = none) :
    ChainRouter.Respond rA
        = { statusCode := 404
            body := errBody "no route matching path found"
            headers := [] } ∧
      MwRouter.Respond rB
        = { statusCode := 404
            body := errBody "no route matching path found"
            headers := rB.headers } ∧
      errBody "no route matching path found"
        = "\x7b\"error\":\"no route matching path found\"\x7d" := by
  refine ⟨?_, ?_, by decide⟩
  · unfold ChainRouter.Respond
    rw [hA]
  · unfold MwRouter.Respond
    rw [hB]

/-- Witness request for C2 (from the test suite): `GET /orders/filter` with
no parameters against routers with no matching route. -/
def c2wReq : APIGatewayProxyRequest :=
  { httpMethod := "GET"
    path := "/orders/filter"
    pathParameters := []
    queryParameters := []
    body := ""
    claims := none }

/-- Witness routers for C2: freshly created, no routes registered. -/
def c2wRouterA : ChainRouter.Router :=
  ChainRouter.NewAPIGRouter c2wReq "shipping"

/-- Witness router for C2, middleware variant. -/
def c2wRouterB : MwRouter.Router :=
  MwRouter.NewAPIGRouter
    { request := c2wReq, pfx := "/shipping", headers := [], middleware := [] }

/-- Witness for C2 at a concrete unmatched request. -/
theorem c2_notFound_witness :
    ChainRouter.Respond c2wRouterA
        = { statusCode := 404
            body := errBody "no route matching path found"
            headers := [] } ∧
      MwRouter.Respond c2wRouterB
        = { statusCode := 404
            body := errBody "no route matching path found"
            headers := c2wRouterB.headers } ∧
      errBody "no route matching path found"
        = "\x7b\"error\":\"no route matching path found\"\x7d" :=
  c2_notFound c2wRouterA c2wRouterB (by rfl) (by rfl)

/-! Claim C3. -/

/-- C3, counterexample.  The claim states that during reconciliation each
parameter replaces at most one segment (the first one matching its value).
In the handler-chain variant (router.go lines 105-117) the inner loop has
no `break`: with the parameter key `\x7bid\x7d` valued `x` and the path
segments `x, x`, both segments are replaced, so the parameter rewrote two
segments, not at most one. -/
theorem c3_counterexample :
    ChainRouter.reconcileAll ["\x7bid\x7d"] [("id", "x")] ["x", "x"]
        = ["\x7bid\x7d", "\x7bid\x7d"] ∧
      (ChainRouter.reconcileAll ["\x7bid\x7d"] [("id", "x")]
          ["x", "x"]).count "\x7bid\x7d" = 2 := by
  constructor
  · decide
  · decide

/-- C3, amended.  In the middleware-variant `Respond` (router.go lines
342-352, scan with `break`) each parameter with a non-empty value replaces
exactly the first segment equal to that value and the scan stops: every
earlier segment and every later segment — even one equal to the same value
— is left unchanged.  In the handler-chain variant (lines 105-117, no
`break`) and in `src/unnamed/part_000` (whole-string `strings.Replace`
with count -1) every occurrence is replaced, as the counterexample shows. -/
theorem c3_amended (ps : List String) (pp : List (String × String))
    (p v : String) (pre post : List String)
    (hv : lookupD pp p = v) (hne : v ≠ "") (hpre : v ∉ pre) :
    MwRouter.reconcile (p :: ps) pp (pre ++ v :: post)
      = MwRouter.reconcile ps pp (pre ++ ("\x7b" ++ p ++ "\x7d") :: post) := by
  simp only [MwRouter.reconcile, hv, if_neg hne]
  rw [replaceFirst_append pre post v ("\x7b" ++ p ++ "\x7d") hpre]

/-- Witness for the amended C3: parameter `id` valued `x` on the segments
`a, x, x` — only the first `x` becomes `\x7bid\x7d`, the second survives. -/
theorem c3_amended_witness :
    MwRouter.reconcile ["id"] [("id", "x")] (["a"] ++ "x" :: ["x"])
      = MwRouter.reconcile [] [("id", "x")]
          (["a"] ++ ("\x7b" ++ "id" ++ "\x7d") :: ["x"]) :=
  c3_amended [] [("id", "x")] "id" "x" ["a"] ["x"] (by decide) (by decide)
    (by decide)

/-! The handler loop: handlers that set no error are passed over. -/

theorem runChain_skip (r : ChainRouter.Router) :
    ∀ (hs1 rest : List ChainRouter.APIGHandler) (s : Nat) (b : String),
    (∀ g ∈ hs1, (g (ChainRouter.mkCtx r)).errMsg = none) →
    ∃ s2 b2, ChainRouter.runChain r (hs1 ++ rest) s b
      = ChainRouter.runChain r rest s2 b2 := by
  intro hs1
  induction hs1 with
  | nil =>
    intro rest s b _
    exact ⟨s, b, rfl⟩
  | cons g gs ih =>
    intro rest s b hnone
    have hg := hnone g (List.mem_cons_self g gs)
    obtain ⟨s2, b2, hrec⟩ := ih rest (g (ChainRouter.mkCtx r)).status
      (g (ChainRouter.mkCtx r)).body
      (fun u hu => hnone u (List.mem_cons_of_mem g hu))
    refine ⟨s2, b2, ?_⟩
    simp only [List.cons_append, ChainRouter.runChain, hg]
    exact hrec

/-! Claim C4. -/

/-- Counterexample request for C4. -/
def c4cexReq : APIGatewayProxyRequest :=
  { httpMethod := "GET"
    path := "/x"
    pathParameters := []
    queryParameters := []
    body := ""
    claims := none }

/-- Counterexample chain for C4: the handler sets status 200, body `hello`
and an error whose message is exactly `record not found`. -/
def c4cexFns : MwRouter.RouteFunctions :=
  { handler := fun ctx =>
      { ctx with status := 200, body := "hello", errMsg := some "record not found" }
    middleware := [] }

/-- Counterexample router for C4: route `/x` registered for GET in the
middleware variant. -/
def c4cexRouter : MwRouter.Router :=
  (MwRouter.addRoute
    (MwRouter.NewAPIGRouter
      { request := c4cexReq, pfx := "", headers := [], middleware := [] })
    "GET" "/x" c4cexFns).1

/-- C4, counterexample.  The claim states that whenever the dispatched
chain sets an error containing `record not found`, `Respond` returns 204.
The middleware-variant `Respond` (router.go lines 320-378, cited by the
claim at 364-377) never reads the context error: here the dispatched chain
sets the error `record not found`, yet the response carries the status 200
and body `hello` the handler set, not 204. -/
theorem c4_counterexample :
    MwRouter.Respond c4cexRouter
        = { statusCode := 200, body := "hello", headers := [] } ∧
      (MwRouter.applyMw c4cexRouter.middleware
        (MwRouter.applyMw c4cexFns.middleware c4cexFns.handler)
        (MwRouter.mkCtx c4cexRouter)).errMsg = some "record not found" ∧
      strContains "record not found" "record not found" = true ∧
      (MwRouter.Respond c4cexRouter).statusCode ≠ 204 := by
  refine ⟨by rfl, by rfl, by decide, by decide⟩

/-- C4, amended.  In the handler-chain `Respond` (router.go lines 144-156
and `src/unnamed/part_000` lines 135-146) the claim holds: when the first
handler that sets an error sets a message containing `record not found`,
the response status is 204 whatever status that handler set, and the body
is the marshalled error object.  The middleware-variant `Respond` ignores
the context error entirely (counterexample above). -/
theorem c4_amended (r : ChainRouter.Router)
    (hs1 hs2 : List ChainRouter.APIGHandler) (h : ChainRouter.APIGHandler)
    (msg : String)
    (hkey : getT (r.endpoints r.request.httpMethod) (ChainRouter.canonicalPath r)
        = some (hs1 ++ h :: hs2))
    (hnone : ∀ g ∈ hs1, (g (ChainRouter.mkCtx r)).errMsg = none)
    (herr : (h (ChainRouter.mkCtx r)).errMsg = some msg)
    (hcont : strContains msg "record not found" = true) :
    ChainRouter.Respond r
      = { statusCode := 204, body := errBody msg, headers := [] } := by
  unfold ChainRouter.Respond
  rw [hkey]
  show ChainRouter.runChain r (hs1 ++ h :: hs2) 0 "" = _
  obtain ⟨s2, b2, hskip⟩ := runChain_skip r hs1 (h :: hs2) 0 "" hnone
  rw [hskip]
  simp only [ChainRouter.runChain, herr, hcont, if_true]

/-- Witness request for C4 (the scenario of the repository test suite). -/
def c4wReq : APIGatewayProxyRequest :=
  { httpMethod := "GET"
    path := "/shipping/orders/filter/by_user/4d50ff90-66e3-4047-bf37-0ca25837e41d"
    pathParameters := [("id", "4d50ff90-66e3-4047-bf37-0ca25837e41d")]
    queryParameters := []
    body := ""
    claims := none }

/-- Witness handler for C4: status 400, body `hello`, error
`record not found` (`part_001` lines 74-98 expects 204). -/
def c4wHandler : ChainRouter.APIGHandler := fun ctx =>
  { ctx with status := 400, body := "hello", errMsg := some "record not found" }

/-- Witness router for C4. -/
def c4wRouter : ChainRouter.Router :=
  (ChainRouter.addEndpoint (ChainRouter.NewAPIGRouter c4wReq "shipping")
    "GET" "/orders/filter/by_user/\x7bid\x7d" [c4wHandler]).1

/-- Witness for the amended C4: the handler set status 400, the response
status is 204 and the body is the marshalled error. -/
theorem c4_amended_witness :
    ChainRouter.Respond c4wRouter
      = { statusCode := 204, body := errBody "record not found", headers := [] } :=
  c4_amended c4wRouter [] [] c4wHandler "record not found" (by rfl)
    (fun g hg => absurd hg (List.not_mem_nil g)) (by rfl) (by decide)

/-! Claim C5. -/

/-- C5: in the handler-chain `Respond` (router.go lines 144-156,
`src/unnamed/part_000` lines 135-146), when the first erroring handler sets
a message not containing `record not found`, a handler-set status below 400
is forced to 400 and a status of 400 or above is preserved; in both cases
the body becomes the marshalled error object. -/
theorem c5_errorStatus (r : ChainRouter.Router)
    (hs1 hs2 : List ChainRouter.APIGHandler) (h : ChainRouter.APIGHandler)
    (msg : String)
    (hkey : getT (r.endpoints r.request.httpMethod) (ChainRouter.canonicalPath r)
        = some (hs1 ++ h :: hs2))
    (hnone : ∀ g ∈ hs1, (g (ChainRouter.mkCtx r)).errMsg = none)
    (herr : (h (ChainRouter.mkCtx r)).errMsg = some msg)
    (hcont : strContains msg "record not found" = false) :
    ChainRouter.Respond r
      = { statusCode :=
            if (h (ChainRouter.mkCtx r)).status < 400 then 400
            else (h (ChainRouter.mkCtx r)).status
          body := errBody msg
          headers := [] } := by
  unfold ChainRouter.Respond
  rw [hkey]
  show ChainRouter.runChain r (hs1 ++ h :: hs2) 0 "" = _
  obtain ⟨s2, b2, hskip⟩ := runChain_skip r hs1 (h :: hs2) 0 "" hnone
  rw [hskip]
  simp only [ChainRouter.runChain, herr, hcont, Bool.false_eq_true, if_false]

/-- Witness request for C5 (the scenario of the repository test suite). -/
def c5wReq : APIGatewayProxyRequest :=
  { httpMethod := "GET"
    path := "/shipping/orders/filter/by_user/4d50ff90-66e3-4047-bf37-0ca25837e41d"
    pathParameters := [("id", "4d50ff90-66e3-4047-bf37-0ca25837e41d")]
    queryParameters := []
    body := ""
    claims := none }

/-- Witness handler for C5: status 200 (below 400), body `hello`, error
`bad request` (`part_001` lines 102-128 expects 400). -/
def c5wHandler : ChainRouter.APIGHandler := fun ctx =>
  { ctx with status := 200, body := "hello", errMsg := some "bad request" }

/-- Witness router for C5. -/
def c5wRouter : ChainRouter.Router :=
  (ChainRouter.addEndpoint (ChainRouter.NewAPIGRouter c5wReq "shipping")
    "GET" "/orders/filter/by_user/\x7bid\x7d" [c5wHandler]).1

/-- Witness for C5: the handler set status 200 and the error `bad request`;
the response is 400 with the marshalled error body. -/
theorem c5_errorStatus_witness :
    ChainRouter.Respond c5wRouter
      = { statusCode := 400, body := errBody "bad request", headers := [] } :=
  (c5_errorStatus c5wRouter [] [] c5wHandler "bad request" (by rfl)
    (fun g hg => absurd hg (List.not_mem_nil g)) (by rfl) (by decide)).trans
    (by decide)

/-! Claim C6: execution order of the composed chain, observed by
middleware that append a tag to the context body before handing the
context to the inner handler. -/

/-- A middleware that records the tag `t` on the context body and then
invokes the wrapped handler: the position of `t` in the final body is the
moment this middleware observed the context. -/
def tagMw (t : String) : MwRouter.APIGMiddleware := fun h ctx =>
  h { ctx with body := ctx.body ++ (t ++ ";") }

/-- A terminal handler recording the tag `t`. -/
def tagHandler (t : String) : MwRouter.APIGHandler := fun ctx =>
  { ctx with body := ctx.body ++ t }

/-- The trace left by a list of tagging middleware run in list order. -/
def tagTrace : List String → String
  | [] => ""
  | x :: xs => x ++ ";" ++ tagTrace xs

theorem tagTrace_append (u v : List String) :
    tagTrace (u ++ v) = tagTrace u ++ tagTrace v := by
  induction u with
  | nil => simp [tagTrace, String.empty_append]
  | cons x xs ih => simp [tagTrace, ih, String.append_assoc]

theorem applyMw_tags (l : List String) :
    ∀ (h : MwRouter.APIGHandler) (ctx : MwRouter.APIGContext),
    MwRouter.applyMw (l.map tagMw) h ctx
      = h { ctx with body := ctx.body ++ tagTrace l.reverse } := by
  induction l with
  | nil =>
    intro h ctx
    show h ctx = h { ctx with body := ctx.body ++ tagTrace ([] : List String).reverse }
    have hb : ctx.body ++ tagTrace ([] : List String).reverse = ctx.body :=
      String.append_empty ctx.body
    rw [hb]
  | cons a l2 ih =>
    intro h ctx
    have hstep : MwRouter.applyMw ((a :: l2).map tagMw) h
        = MwRouter.applyMw (l2.map tagMw) (tagMw a h) := rfl
    rw [hstep, ih (tagMw a h) ctx]
    simp [tagMw, List.reverse_cons, tagTrace_append, tagTrace,
      String.append_empty, String.append_assoc]

/-- The found branch of the middleware-variant `Respond`: when the lookup
succeeds the response carries the status and body left on the context by
the composed chain, plus the configured headers. -/
theorem respond_found (r : MwRouter.Router) (fns : MwRouter.RouteFunctions)
    (hkey : getT (r.routes r.request.httpMethod) (MwRouter.canonicalPath r)
        = some fns) :
    MwRouter.Respond r
      = { statusCode :=
            (MwRouter.applyMw r.middleware
              (MwRouter.applyMw fns.middleware fns.handler)
              (MwRouter.mkCtx r)).status
          body :=
            (MwRouter.applyMw r.middleware
              (MwRouter.applyMw fns.middleware fns.handler)
              (MwRouter.mkCtx r)).body
          headers := r.headers } := by
  unfold MwRouter.Respond
  rw [hkey]

/-- C6: for every dispatched route, the composed chain built by `Respond`
(router.go lines 366-372) runs router-level middleware strictly before
route-level middleware and the terminal handler strictly last.  With
tagging middleware the final body is the initial body, then the trace of
the router-level tags, then the trace of the route-level tags, then the
terminal tag — so every router-level middleware observes the context
before any route-level middleware, and the terminal handler closes the
chain.  (Within each level the trace is the reverse of registration order,
because each `m(handler)` wrap puts the later middleware outside.) -/
theorem c6_order (r : MwRouter.Router) (fns : MwRouter.RouteFunctions)
    (as bs : List String) (t : String)
    (hmw : r.middleware = as.map tagMw)
    (hfns : fns = { handler := tagHandler t, middleware := bs.map tagMw })
    (hkey : getT (r.routes r.request.httpMethod) (MwRouter.canonicalPath r)
        = some fns) :
    MwRouter.Respond r
      = { statusCode := (MwRouter.mkCtx r).status
          body := (MwRouter.mkCtx r).body
            ++ tagTrace as.reverse ++ tagTrace bs.reverse ++ t
          headers := r.headers } := by
  rw [respond_found r fns hkey, hmw, hfns]
  rw [applyMw_tags as]
  rw [applyMw_tags bs]
  simp [tagHandler, String.append_assoc]

/-- Witness request for C6. -/
def c6wReq : APIGatewayProxyRequest :=
  { httpMethod := "GET"
    path := "/w"
    pathParameters := []
    queryParameters := []
    body := ""
    claims := none }

/-- Witness chain for C6: two route-level tagging middleware and a tagging
terminal handler. -/
def c6wFns : MwRouter.RouteFunctions :=
  { handler := tagHandler "H"
    middleware := [tagMw "m1", tagMw "m2"] }

/-- Witness router for C6: two router-level tagging middleware. -/
def c6wRouter : MwRouter.Router :=
  (MwRouter.addRoute
    (MwRouter.NewAPIGRouter
      { request := c6wReq, pfx := "", headers := []
        middleware := [tagMw "M1", tagMw "M2"] })
    "GET" "/w" c6wFns).1

/-- Witness for C6 at a concrete chain. -/
theorem c6_order_witness :
    MwRouter.Respond c6wRouter
      = { statusCode := (MwRouter.mkCtx c6wRouter).status
          body := (MwRouter.mkCtx c6wRouter).body
            ++ tagTrace ["M1", "M2"].reverse ++ tagTrace ["m1", "m2"].reverse ++ "H"
          headers := c6wRouter.headers } :=
  c6_order c6wRouter c6wFns ["M1", "M2"] ["m1", "m2"] "H" (by rfl) (by rfl)
    (by rfl)

/-! Registration lemmas shared by the duplicate-route claims. -/

theorem addRouteFresh (r : MwRouter.Router) (m path : String)
    (fns : MwRouter.RouteFunctions)
    (h : getT (r.routes m) path = none) :
    (MwRouter.addRoute r m path fns).2 = false ∧
      getT ((MwRouter.addRoute r m path fns).1.routes m) path = some fns := by
  have hi : (insertT (r.routes m) path fns).2 = false := insertT_fresh _ _ _ h
  constructor
  · simp [MwRouter.addRoute, hi]
  · simp [MwRouter.addRoute, hi, insertT_get]

theorem addRouteDup (r : MwRouter.Router) (m path : String)
    (f2 w : MwRouter.RouteFunctions)
    (h : getT (r.routes m) path = some w) :
    (MwRouter.addRoute r m path f2).2 = true ∧
      getT ((MwRouter.addRoute r m path f2).1.routes m) path = some f2 ∧
      (MwRouter.addRoute r m path f2).1.params = r.params := by
  have hi : (insertT (r.routes m) path f2).2 = true := insertT_dup _ _ _ w h
  refine ⟨?_, ?_, ?_⟩
  · simp [MwRouter.addRoute, hi]
  · simp [MwRouter.addRoute, hi, insertT_get]
  · simp [MwRouter.addRoute, hi]

theorem addEndpointFresh (r : ChainRouter.Router) (m route : String)
    (hs : List ChainRouter.APIGHandler)
    (h : getT (r.endpoints m) route = none) :
    (ChainRouter.addEndpoint r m route hs).2 = false ∧
      getT ((ChainRouter.addEndpoint r m route hs).1.endpoints m) route = some hs := by
  have hi : (insertT (r.endpoints m) route hs).2 = false := insertT_fresh _ _ _ h
  constructor
  · simp [ChainRouter.addEndpoint, hi]
  · simp [ChainRouter.addEndpoint, hi, insertT_get]

theorem addEndpointDup (r : ChainRouter.Router) (m route : String)
    (g2 w : List ChainRouter.APIGHandler)
    (h : getT (r.endpoints m) route = some w) :
    (ChainRouter.addEndpoint r m route g2).2 = true ∧
      getT ((ChainRouter.addEndpoint r m route g2).1.endpoints m) route = some g2 ∧
      (ChainRouter.addEndpoint r m route g2).1.params = r.params := by
  have hi : (insertT (r.endpoints m) route g2).2 = true := insertT_dup _ _ _ w h
  refine ⟨?_, ?_, ?_⟩
  · simp [ChainRouter.addEndpoint, hi]
  · simp [ChainRouter.addEndpoint, hi, insertT_get]
  · simp [ChainRouter.addEndpoint, hi]

/-! Claim C7. -/

/-- C7: registering a (method, path) pair that is not yet present succeeds
without fault, and registering the same pair again raises the
duplicate-route fault (`panic("endpoint already existent")`, modelled by
the `true` fault flag), in both `addRoute` (router.go lines 392-395) and
`addEndpoint` (lines 175-178). -/
theorem c7_duplicate
    (rB : MwRouter.Router) (m path : String)
    (f1 f2 : MwRouter.RouteFunctions)
    (rA : ChainRouter.Router) (mA routeA : String)
    (g1 g2 : List ChainRouter.APIGHandler)
    (hB : getT (rB.routes m) path = none)
    (hA : getT (rA.endpoints mA) routeA = none) :
    ((MwRouter.addRoute rB m path f1).2 = false ∧
      (MwRouter.addRoute (MwRouter.addRoute rB m path f1).1 m path f2).2 = true) ∧
    ((ChainRouter.addEndpoint rA mA routeA g1).2 = false ∧
      (ChainRouter.addEndpoint
        (ChainRouter.addEndpoint rA mA routeA g1).1 mA routeA g2).2 = true) := by
  obtain ⟨hB1, hB2⟩ := addRouteFresh rB m path f1 hB
  obtain ⟨hA1, hA2⟩ := addEndpointFresh rA mA routeA g1 hA
  exact ⟨⟨hB1, (addRouteDup _ m path f2 f1 hB2).1⟩,
    ⟨hA1, (addEndpointDup _ mA routeA g2 g1 hA2).1⟩⟩

/-- Witness request for C7. -/
def c7wReq : APIGatewayProxyRequest :=
  { httpMethod := "PUT"
    path := "/thing"
    pathParameters := []
    queryParameters := []
    body := ""
    claims := none }

/-- Witness chain for C7, middleware variant. -/
def c7wFns : MwRouter.RouteFunctions :=
  { handler := fun ctx => ctx, middleware := [] }

/-- Witness router for C7, middleware variant. -/
def c7wRouterB : MwRouter.Router :=
  MwRouter.NewAPIGRouter
    { request := c7wReq, pfx := "", headers := [], middleware := [] }

/-- Witness handler list for C7, handler-chain variant. -/
def c7wHs : List ChainRouter.APIGHandler :=
  [fun ctx => ctx]

/-- Witness router for C7, handler-chain variant. -/
def c7wRouterA : ChainRouter.Router :=
  ChainRouter.NewAPIGRouter c7wReq ""

/-- Witness for C7: registering `PUT /thing` twice on fresh routers. -/
theorem c7_duplicate_witness :
    ((MwRouter.addRoute c7wRouterB "PUT" "/thing" c7wFns).2 = false ∧
      (MwRouter.addRoute (MwRouter.addRoute c7wRouterB "PUT" "/thing" c7wFns).1
        "PUT" "/thing" c7wFns).2 = true) ∧
    ((ChainRouter.addEndpoint c7wRouterA "PUT" "/thing" c7wHs).2 = false ∧
      (ChainRouter.addEndpoint
        (ChainRouter.addEndpoint c7wRouterA "PUT" "/thing" c7wHs).1
        "PUT" "/thing" c7wHs).2 = true) :=
  c7_duplicate c7wRouterB "PUT" "/thing" c7wFns c7wFns c7wRouterA "PUT" "/thing"
    c7wHs c7wHs (by rfl) (by rfl)

/-- `runChain` reads the router only through the per-handler fresh
context. -/
theorem runChain_congr (r1 r2 : ChainRouter.Router)
    (hctx : ChainRouter.mkCtx r1 = ChainRouter.mkCtx r2) :
    ∀ (hs : List ChainRouter.APIGHandler) (s : Nat) (b : String),
    ChainRouter.runChain r1 hs s b = ChainRouter.runChain r2 hs s b := by
  intro hs
  induction hs with
  | nil => intro s b; rfl
  | cons h rest ih =>
    intro s b
    simp only [ChainRouter.runChain, hctx]
    generalize (h (ChainRouter.mkCtx r2)).errMsg = o
    cases o with
    | some msg => rfl
    | none => exact ih _ _

/-- `Respond` is unchanged under a change of router state that preserves
the store, the request, the canonical key and the dispatch context. -/
theorem respond_congr (r1 r2 : ChainRouter.Router)
    (hend : r1.endpoints = r2.endpoints)
    (hreq : r1.request = r2.request)
    (hcp : ChainRouter.canonicalPath r1 = ChainRouter.canonicalPath r2)
    (hctx : ChainRouter.mkCtx r1 = ChainRouter.mkCtx r2) :
    ChainRouter.Respond r1 = ChainRouter.Respond r2 := by
  unfold ChainRouter.Respond
  rw [hcp, hend, hreq]
  generalize getT (r2.endpoints r2.request.httpMethod)
    (ChainRouter.canonicalPath r2) = o
  cases o with
  | none => rfl
  | some handlers => exact runChain_congr r1 r2 hctx handlers 0 ""

/-! Claim C8. -/

/-- A known parameter with an empty request value is skipped wherever it
sits in the iteration order of the known-parameter set, middleware
variant. -/
theorem reconcile_skip_middle (pp : List (String × String)) (p : String)
    (hp : lookupD pp p = "") :
    ∀ (ps1 ps2 : List String) (segs : List String),
    MwRouter.reconcile (ps1 ++ p :: ps2) pp segs
      = MwRouter.reconcile (ps1 ++ ps2) pp segs := by
  intro ps1
  induction ps1 with
  | nil =>
    intro ps2 segs
    simp only [List.nil_append, MwRouter.reconcile, hp, if_pos]
  | cons q qs ih =>
    intro ps2 segs
    simp only [List.cons_append, MwRouter.reconcile]
    by_cases hq : lookupD pp q = ""
    · rw [if_pos hq, if_pos hq]
      exact ih ps2 segs
    · rw [if_neg hq, if_neg hq]
      exact ih ps2 _

/-- A known parameter with an empty request value is skipped wherever it
sits in the iteration order, handler-chain variant. -/
theorem reconcileAll_skip_middle (pp : List (String × String)) (k : String)
    (hk : lookupD pp (pname k) = "") :
    ∀ (ks1 ks2 : List String) (segs : List String),
    ChainRouter.reconcileAll (ks1 ++ k :: ks2) pp segs
      = ChainRouter.reconcileAll (ks1 ++ ks2) pp segs := by
  intro ks1
  induction ks1 with
  | nil =>
    intro ks2 segs
    simp only [List.nil_append, ChainRouter.reconcileAll, hk, if_pos]
  | cons q qs ih =>
    intro ks2 segs
    simp only [List.cons_append, ChainRouter.reconcileAll]
    by_cases hq : lookupD pp (pname q) = ""
    · rw [if_pos hq, if_pos hq]
      exact ih ks2 segs
    · rw [if_neg hq, if_neg hq]
      exact ih ks2 _

/-- C8: a known parameter whose concrete value is the empty string — in
particular one whose name is absent from the request map, since a Go map
read returns the zero value — is never substituted during reconciliation,
wherever it sits in the known-parameter set: `Respond` behaves exactly as
if that parameter were not known at all, in both variants (router.go lines
108 and 343 test `!= ""`). -/
theorem c8_emptyValue (rB : MwRouter.Router) (p : String)
    (ps1 ps2 : List String)
    (rA : ChainRouter.Router) (k : String) (ks1 ks2 : List String)
    (hBp : rB.params = ps1 ++ p :: ps2)
    (hBv : lookupD rB.request.pathParameters p = "")
    (hAp : rA.params = ks1 ++ k :: ks2)
    (hAv : lookupD rA.request.pathParameters (pname k) = "") :
    MwRouter.Respond rB = MwRouter.Respond { rB with params := ps1 ++ ps2 } ∧
      ChainRouter.Respond rA
        = ChainRouter.Respond { rA with params := ks1 ++ ks2 } := by
  constructor
  · have hc : MwRouter.canonicalPath rB
        = MwRouter.canonicalPath { rB with params := ps1 ++ ps2 } := by
      unfold MwRouter.canonicalPath
      rw [hBp]
      show "/" ++ joinSlash
          (MwRouter.reconcile (ps1 ++ p :: ps2) rB.request.pathParameters
            (stripSlashesAndSplit (trimPrefixStr rB.request.path rB.pfx))) = _
      rw [reconcile_skip_middle rB.request.pathParameters p hBv ps1 ps2]
    unfold MwRouter.Respond
    rw [hc]
    rfl
  · have hc : ChainRouter.canonicalPath rA
        = ChainRouter.canonicalPath { rA with params := ks1 ++ ks2 } := by
      unfold ChainRouter.canonicalPath
      rw [hAp]
      show "/" ++ joinSlash
          (ChainRouter.reconcileAll (ks1 ++ k :: ks2) rA.request.pathParameters
            (stripSlashesAndSplit
              (trimPrefixStr rA.request.path ("/" ++ rA.svcpfx)))) = _
      rw [reconcileAll_skip_middle rA.request.pathParameters k hAv ks1 ks2]
    exact respond_congr rA { rA with params := ks1 ++ ks2 } rfl rfl hc rfl

/-- Witness request for C8: the map supplies a value for `a` but none for
the known parameter `b`. -/
def c8wReq : APIGatewayProxyRequest :=
  { httpMethod := "GET"
    path := "/x/1"
    pathParameters := [("a", "1")]
    queryParameters := []
    body := ""
    claims := none }

/-- Witness router for C8, middleware variant: registering `/x/\x7ba\x7d`
then `/y/\x7bb\x7d` makes `a` and `b` known, in that order, so the
empty-valued `b` sits in the middle (tail) of the iteration list. -/
def c8wRouterB : MwRouter.Router :=
  (MwRouter.addRoute
    ((MwRouter.addRoute
      (MwRouter.NewAPIGRouter
        { request := c8wReq, pfx := "", headers := [], middleware := [] })
      "GET" "/x/\x7ba\x7d"
      { handler := fun ctx => { ctx with status := 200 }, middleware := [] }).1)
    "GET" "/y/\x7bb\x7d"
    { handler := fun ctx => { ctx with status := 201 }, middleware := [] }).1

/-- Witness router for C8, handler-chain variant, with the same two
templates registered. -/
def c8wRouterA : ChainRouter.Router :=
  (ChainRouter.addEndpoint
    ((ChainRouter.addEndpoint (ChainRouter.NewAPIGRouter c8wReq "")
      "GET" "/x/\x7ba\x7d" [fun ctx => { ctx with status := 200 }]).1)
    "GET" "/y/\x7bb\x7d" [fun ctx => { ctx with status := 201 }]).1

/-- Witness for C8: the parameter `b` is known but absent from the request
map and sits after `a` in the stored parameter list; responding equals
responding without `b`. -/
theorem c8_emptyValue_witness :
    MwRouter.Respond c8wRouterB
        = MwRouter.Respond { c8wRouterB with params := ["a"] ++ [] } ∧
      ChainRouter.Respond c8wRouterA
        = ChainRouter.Respond { c8wRouterA with params := ["\x7ba\x7d"] ++ [] } :=
  c8_emptyValue c8wRouterB "b" ["a"] [] c8wRouterA "\x7bb\x7d" ["\x7ba\x7d"] []
    (by decide) (by rfl) (by decide) (by rfl)

/-! Claim C9. -/

/-- Counterexample chain for C9. -/
def c9cexFns : MwRouter.RouteFunctions :=
  { handler := fun ctx => { ctx with status := 200 }, middleware := [] }

/-- Counterexample request for C9. -/
def c9cexReq : APIGatewayProxyRequest :=
  { httpMethod := "GET"
    path := "/"
    pathParameters := []
    queryParameters := []
    body := ""
    claims := none }

/-- Counterexample router for C9: fresh, nothing registered. -/
def c9cexRouter : MwRouter.Router :=
  MwRouter.NewAPIGRouter
    { request := c9cexReq, pfx := "", headers := [], middleware := [] }

/-- C9, counterexample.  The claim states that registering an empty path
(or a path with an empty segment) fails with the invalid-path fault rather
than inserting the route.  `addRoute` (router.go lines 392-406) performs no
path validation: registering the empty path raises no fault and the route
is inserted under the key `""`. -/
theorem c9_counterexample :
    (MwRouter.addRoute c9cexRouter "GET" "" c9cexFns).2 = false ∧
      getT ((MwRouter.addRoute c9cexRouter "GET" "" c9cexFns).1.routes "GET") ""
        = some c9cexFns := by
  exact ⟨rfl, rfl⟩

/-- C9, amended.  Neither `addRoute` nor `addEndpoint` validates the path:
any path whose key is not yet present — including the empty path and paths
containing empty segments — is inserted without fault.  The invalid-path
fault described by the spec exists only in the later `Router` variant of
the repository, whose implementation is not under src/ (its test,
router_test.go lines 43-46, expects `r.Post("", handler)` to panic). -/
theorem c9_amended (r : MwRouter.Router) (m path : String)
    (fns : MwRouter.RouteFunctions)
    (h : getT (r.routes m) path = none) :
    (MwRouter.addRoute r m path fns).2 = false ∧
      getT ((MwRouter.addRoute r m path fns).1.routes m) path = some fns :=
  addRouteFresh r m path fns h

/-- Witness for the amended C9: a path with an empty segment inside is
inserted without fault. -/
theorem c9_amended_witness :
    (MwRouter.addRoute c9cexRouter "GET" "/a//b" c9cexFns).2 = false ∧
      getT ((MwRouter.addRoute c9cexRouter "GET" "/a//b" c9cexFns).1.routes "GET")
          "/a//b"
        = some c9cexFns :=
  c9_amended c9cexRouter "GET" "/a//b" c9cexFns (by rfl)

/-! Claim C10. -/

/-- C10: when a duplicate (method, path) registration faults, the store has
already been mutated: at the moment of the fault the key maps to the newly
supplied chain, not the original one, while the parameter set is untouched
(the `panic` at router.go lines 393-395 and 176-178 fires between the tree
insert and the parameter loop).  Registration is therefore not atomic on
error, in both variants. -/
theorem c10_nonatomic
    (rB : MwRouter.Router) (m path : String)
    (f1 f2 : MwRouter.RouteFunctions)
    (rA : ChainRouter.Router) (mA routeA : String)
    (g1 g2 : List ChainRouter.APIGHandler)
    (hB : getT (rB.routes m) path = some f1)
    (hA : getT (rA.endpoints mA) routeA = some g1) :
    ((MwRouter.addRoute rB m path f2).2 = true ∧
      getT ((MwRouter.addRoute rB m path f2).1.routes m) path = some f2 ∧
      (MwRouter.addRoute rB m path f2).1.params = rB.params) ∧
    ((ChainRouter.addEndpoint rA mA routeA g2).2 = true ∧
      getT ((ChainRouter.addEndpoint rA mA routeA g2).1.endpoints mA) routeA
        = some g2 ∧
      (ChainRouter.addEndpoint rA mA routeA g2).1.params = rA.params) :=
  ⟨addRouteDup rB m path f2 f1 hB, addEndpointDup rA mA routeA g2 g1 hA⟩

/-- Witness chain for C10: a second chain distinct from the first. -/
def c10wFns2 : MwRouter.RouteFunctions :=
  { handler := fun ctx => { ctx with status := 500 }, middleware := [] }

/-- Witness router for C10, middleware variant, with `PUT /thing` already
registered. -/
def c10wRouterB : MwRouter.Router :=
  (MwRouter.addRoute
    (MwRouter.NewAPIGRouter
      { request := c7wReq, pfx := "", headers := [], middleware := [] })
    "PUT" "/thing" c7wFns).1

/-- Witness handler list for C10. -/
def c10wHs2 : List ChainRouter.APIGHandler :=
  [fun ctx => { ctx with status := 500 }]

/-- Witness router for C10, handler-chain variant, with `PUT /thing`
already registered. -/
def c10wRouterA : ChainRouter.Router :=
  (ChainRouter.addEndpoint (ChainRouter.NewAPIGRouter c7wReq "")
    "PUT" "/thing" c7wHs).1

/-- Witness for C10: re-registering `PUT /thing` faults and the store
already holds the new chain while `params` is unchanged. -/
theorem c10_nonatomic_witness :
    ((MwRouter.addRoute c10wRouterB "PUT" "/thing" c10wFns2).2 = true ∧
      getT ((MwRouter.addRoute c10wRouterB "PUT" "/thing" c10wFns2).1.routes "PUT")
          "/thing" = some c10wFns2 ∧
      (MwRouter.addRoute c10wRouterB "PUT" "/thing" c10wFns2).1.params
        = c10wRouterB.params) ∧
    ((ChainRouter.addEndpoint c10wRouterA "PUT" "/thing" c10wHs2).2 = true ∧
      getT ((ChainRouter.addEndpoint c10wRouterA "PUT" "/thing" c10wHs2).1.endpoints
          "PUT") "/thing" = some c10wHs2 ∧
      (ChainRouter.addEndpoint c10wRouterA "PUT" "/thing" c10wHs2).1.params
        = c10wRouterA.params) :=
  c10_nonatomic c10wRouterB "PUT" "/thing" c7wFns c10wFns2 c10wRouterA "PUT"
    "/thing" c7wHs c10wHs2 (by rfl) (by rfl)
